import Mathlib

/-!
Shallow embedding of the s3watcher repository (package s3watcher:
s3_watcher.py, s3_event.py, infra/queue_configurations.py,
infra/sqs_utils.py) for checking its specification claims.

Python dictionaries are embedded as structures whose fields are `Option`
values: a `d[k]` access on a missing key raises KeyError, a `d.get(k)`
access returns None; both are made explicit below.  Python exceptions are
embedded as the error side of `Except PyError`.
-/

/-- Python exceptions that the embedded code can raise. -/
inductive PyError where
  | keyError (key : String)
  | valueError (msg : String)
  | typeError (msg : String)
  | clientError (msg : String)
  | notImplementedError
deriving DecidableEq, Repr

/-- Embeds the object section of a bucket-notification record:
record, field s3, field object.  Every field is optional because the
source reads some with a raising access and some with a defaulting get. -/
structure ObjectSection where
  key : Option String := none
  size : Option Int := none
  eTag : Option String := none
  sequencer : Option String := none
  versionId : Option String := none
deriving DecidableEq, Repr

/-- Embeds the bucket section of a record: record, field s3, field bucket. -/
structure BucketSection where
  name : Option String := none
deriving DecidableEq, Repr

/-- Embeds the s3 section of a record. -/
structure S3Section where
  bucket : Option BucketSection := none
  object : Option ObjectSection := none
deriving DecidableEq, Repr

/-- Embeds one element of the Records array of a queue message body. -/
structure SQSRecord where
  eventSource : Option String := none
  eventVersion : Option String := none
  eventName : Option String := none
  eventTime : Option String := none
  s3 : Option S3Section := none
deriving DecidableEq, Repr

/-- Embeds a raising dictionary access d[k]: KeyError when the key is
absent. -/
def getItem {α : Type} (o : Option α) (k : String) : Except PyError α :=
  match o with
  | some v => Except.ok v
  | none => Except.error (PyError.keyError k)

/-- Embeds FileEventType of s3_event.py (enum with values created,
updated, deleted). -/
inductive FileEventType where
  | CREATED
  | UPDATED
  | DELETED
deriving DecidableEq, Repr

/-- Embeds the S3Event dataclass of s3_event.py.  In the source, fields
bucket, key, size, etag, version_id and file_event_type have no default
and are required by the generated init; sequence, event_datetime and
event_name have defaults.  The datetime default is embedded as an
optional string, which the watcher never sets. -/
structure S3Event where
  bucket : String
  key : String
  size : Option Int
  etag : Option String
  version_id : Option String
  file_event_type : FileEventType
  sequence : Option Nat := none
  event_datetime : Option String := none
  event_name : Option String := none
deriving DecidableEq, Repr

/-- Keyword parameter names accepted by the generated init of the
S3Event dataclass, in field order. -/
def s3EventInitParamNames : List String :=
  ["bucket", "key", "size", "etag", "version_id", "file_event_type",
   "sequence", "event_datetime", "event_name"]

/-- Keyword parameter names the generated init of S3Event requires
(the dataclass fields without a default value). -/
def s3EventRequiredParamNames : List String :=
  ["bucket", "key", "size", "etag", "version_id", "file_event_type"]

/-- Keyword names S3Watcher dot create event passes to S3Event in the
created branch of the source. -/
def createdKwNames : List String :=
  ["bucket", "key", "size", "etag", "sequence", "file_event_type",
   "event_time"]

/-- Keyword names S3Watcher dot create event passes to S3Event in the
deleted branch of the source. -/
def deletedKwNames : List String :=
  ["bucket", "size", "etag", "key", "sequence", "file_event_type",
   "event_time"]

/-- Embeds a keyword call of the generated init of S3Event with the
given argument values and keyword names: Python raises TypeError when a
keyword is not a parameter of the init, or when a required parameter is
missing.  When the call is accepted the event holds the passed values
and the declared defaults.  (The version id default written here is
unreachable at the call sites of the watcher, whose keyword lists are
rejected; this is proved below.) -/
def mkS3EventKwCall (bucket key : String) (size : Option Int)
    (etag : Option String) (sequence : Nat) (fet : FileEventType)
    (provided : List String) : Except PyError (Option S3Event) :=
  if provided.all (fun p => s3EventInitParamNames.contains p) then
    if s3EventRequiredParamNames.all (fun q => provided.contains q) then
      Except.ok (some
        { bucket := bucket, key := key, size := size, etag := etag,
          version_id := none, file_event_type := fet,
          sequence := some sequence })
    else Except.error (PyError.typeError "missing required argument")
  else Except.error (PyError.typeError "unexpected keyword argument")

/-- Value of a hexadecimal digit character, none for other characters. -/
def hexDigitVal (c : Char) : Option Nat :=
  if '0' ≤ c ∧ c ≤ '9' then some (c.toNat - '0'.toNat)
  else if 'a' ≤ c ∧ c ≤ 'f' then some (c.toNat - 'a'.toNat + 10)
  else if 'A' ≤ c ∧ c ≤ 'F' then some (c.toNat - 'A'.toNat + 10)
  else none

/-- Big-endian fold of hexadecimal digits, none on a non-digit. -/
def hexFold : List Char → Nat → Option Nat
  | [], acc => some acc
  | c :: cs, acc =>
    match hexDigitVal c with
    | some d => hexFold cs (16 * acc + d)
    | none => none

/-- Embeds the Python builtin int with base 16 as applied by the source
to sequencer strings: a non-empty string of hexadecimal digits parses
big-endian to its value, anything else raises ValueError.  (The builtin
additionally strips whitespace and accepts a sign, a 0x marker and
underscores; sequencer strings contain none of those.) -/
def pyIntBase16 (s : String) : Except PyError Nat :=
  if s.isEmpty then Except.error (PyError.valueError s)
  else
    match hexFold s.toList 0 with
    | some n => Except.ok n
    | none => Except.error (PyError.valueError s)

/-- Character list worker for the form decoding below.  A plus decodes
to a space; a percent followed by two hexadecimal digits decodes to the
character of that byte value; everything else passes through.  (The
library routine groups consecutive percent escapes into bytes and
decodes them as UTF-8; for single-byte escapes, the only kind the
claims exercise, the two agree.) -/
def unquotePlusAux : List Char → List Char
  | [] => []
  | '+' :: rest => ' ' :: unquotePlusAux rest
  | '%' :: a :: b :: rest =>
    match hexDigitVal a, hexDigitVal b with
    | some x, some y => Char.ofNat (16 * x + y) :: unquotePlusAux rest
    | _, _ => '%' :: unquotePlusAux (a :: b :: rest)
  | c :: rest => c :: unquotePlusAux rest

/-- Embeds urllib unquote plus as applied to object keys. -/
def unquote_plus (s : String) : String :=
  String.mk (unquotePlusAux s.toList)

/-- Embeds the Python idiom of splitting a string on a dot and taking
the first piece: the characters before the first dot (the whole string
when there is no dot). -/
def pySplitDotHead (s : String) : String :=
  String.mk (s.toList.takeWhile (fun c => c ≠ '.'))

/-- Embeds the Python str startswith as used on event names, computed
structurally over the character lists. -/
def pyStartsWith (s pre : String) : Bool :=
  pre.toList.isPrefixOf s.toList

/-- Embeds S3Watcher dot create event (the event mapper).  The first
argument is the bucket name the watcher is bound to (self bucket name,
which also equals self bucket dot name).  Accesses, checks and the
construction of the S3Event follow the source line by line:
source filter, version filter (major version must be 2), bucket filter,
event-name prefix classification, form decoding of the key, base-16
parse of the sequencer, then the keyword construction of the event in
the created and deleted branches and the fall-through return of None
in the remaining branch. -/
def create_event (bucket_name : String) (r : SQSRecord) :
    Except PyError (Option S3Event) :=
  if r.eventSource ≠ some "aws:s3" then Except.ok none
  else
    match r.eventVersion with
    | none => Except.error (PyError.keyError "eventVersion")
    | some ev =>
      if pySplitDotHead ev ≠ "2" then Except.ok none
      else
        match r.s3 with
        | none => Except.error (PyError.keyError "s3")
        | some sec =>
          match sec.bucket with
          | none => Except.error (PyError.keyError "bucket")
          | some bk =>
            match bk.name with
            | none => Except.error (PyError.keyError "name")
            | some b =>
              if b ≠ bucket_name then Except.ok none
              else
                match r.eventName with
                | none => Except.error (PyError.keyError "eventName")
                | some en =>
                  let fet :=
                    if pyStartsWith en "ObjectCreated:" then
                      FileEventType.CREATED
                    else if pyStartsWith en "ObjectRemoved:" then
                      FileEventType.DELETED
                    else FileEventType.UPDATED
                  match sec.object with
                  | none => Except.error (PyError.keyError "object")
                  | some obj =>
                    match obj.key with
                    | none => Except.error (PyError.keyError "key")
                    | some rawKey =>
                      let key := unquote_plus rawKey
                      match obj.sequencer with
                      | none => Except.error (PyError.keyError "sequencer")
                      | some sq =>
                        match pyIntBase16 sq with
                        | Except.error e => Except.error e
                        | Except.ok sequence =>
                          if fet = FileEventType.CREATED then
                            match obj.size with
                            | none => Except.error (PyError.keyError "size")
                            | some size =>
                              match obj.eTag with
                              | none => Except.error (PyError.keyError "eTag")
                              | some etag =>
                                match r.eventTime with
                                | none =>
                                  Except.error (PyError.keyError "eventTime")
                                | some _t =>
                                  mkS3EventKwCall bucket_name key
                                    (some size) (some etag) sequence fet
                                    createdKwNames
                          else if fet = FileEventType.DELETED then
                            match r.eventTime with
                            | none =>
                              Except.error (PyError.keyError "eventTime")
                            | some _t =>
                              mkS3EventKwCall bucket_name key
                                obj.size obj.eTag sequence fet
                                deletedKwNames
                          else Except.ok none

/-- The mapper result of one record as the caller of the watch loop
sees it when no exception is raised: the event, or none for a record
the mapper filtered out. -/
def mapperResult (bucket_name : String) (r : SQSRecord) : Option S3Event :=
  match create_event bucket_name r with
  | Except.ok v => v
  | Except.error _ => none

/-- Embeds one queue message as the watch loop consumes it: a message
id and the Records array obtained by parsing the message body as JSON
and reading its Records key with an empty-list default. -/
structure SQSMessage where
  message_id : String
  records : List SQSRecord
deriving DecidableEq, Repr

/-- Embeds the inner record loop of S3Watcher dot watch over one
message body: for each record, the mapper runs and its result is
yielded unconditionally (the source yields the value even when it is
None).  Returns the values yielded and the exception, if any, that
aborted the loop; yields made before the exception stand. -/
def processRecords (bucket_name : String) :
    List SQSRecord → List (Option S3Event) × Option PyError
  | [] => ([], none)
  | r :: rs =>
    match create_event bucket_name r with
    | Except.error e => ([], some e)
    | Except.ok v =>
      let rest := processRecords bucket_name rs
      (v :: rest.1, rest.2)

/-- Embeds the message loop of S3Watcher dot watch over one received
batch: each message has its records processed and is then deleted;
an exception aborts the batch before the delete of the failing
message.  Returns the yielded values, the ids of the deleted messages
and the exception, if any. -/
def processMessages (bucket_name : String) :
    List SQSMessage → List (Option S3Event) × List String × Option PyError
  | [] => ([], [], none)
  | m :: ms =>
    let pr := processRecords bucket_name m.records
    match pr.2 with
    | some e => (pr.1, [], some e)
    | none =>
      let rest := processMessages bucket_name ms
      (pr.1 ++ rest.1, m.message_id :: rest.2.1, rest.2.2)

/-- Observable effects of running the watch loop of S3Watcher dot
watch over a finite list of poll results: the sleeps performed, the
values yielded, the ids of the deleted messages, and the exception
that ended the loop, if any.  The loop itself is a while True with no
break: with no exception it always polls again, so an absent failure
means the loop is still running. -/
structure WatchTrace where
  sleeps : List Nat
  yields : List (Option S3Event)
  deleted : List String
  failure : Option PyError
deriving DecidableEq, Repr

/-- Embeds the body of the while True loop of S3Watcher dot watch,
iterated over a list of successive poll results: when a poll returns
zero messages the loop additionally sleeps wait seconds; every message
of the batch is processed and deleted as above; an exception ends the
run, and otherwise the loop continues into the next poll. -/
def runPolls (bucket_name : String) (wait_seconds : Nat) :
    List (List SQSMessage) → WatchTrace
  | [] => { sleeps := [], yields := [], deleted := [], failure := none }
  | msgs :: rest =>
    let s : List Nat := if msgs.length = 0 then [wait_seconds] else []
    let pm := processMessages bucket_name msgs
    match pm.2.2 with
    | some e =>
      { sleeps := s, yields := pm.1, deleted := pm.2.1, failure := some e }
    | none =>
      let t := runPolls bucket_name wait_seconds rest
      { sleeps := s ++ t.sleeps, yields := pm.1 ++ t.yields,
        deleted := pm.2.1 ++ t.deleted, failure := t.failure }

/-- Embeds the S3Watcher dataclass fields (the configuration captured
at construction).  The source field named after the key-prefix filter
is spelled prefix there, a word Lean reserves, and is renamed here; no
code path reads it. -/
structure WatcherConfig where
  bucket_name : String
  prefix_filter : Option String := none
  create_sqs_queue : Bool := false
  queue_url : Option String := none
  purge_queue_before_watching : Bool := false
  delete_sqs_queue_after_done : Bool := false
  wait_seconds : Nat := 3
  max_num_messages_per_fetch : Nat := 10
deriving DecidableEq, Repr

/-- Outcome of the queue purge call the environment would produce if
the purge were issued. -/
inductive PurgeOutcome where
  | success
  | purgeInProgress
  | otherClientError
deriving DecidableEq, Repr

/-- State the init hook of S3Watcher leaves behind: the queue handle
(kept as its url, None when no handle was made), the derived queue
name, how many purge requests were issued, and how many
purge-in-progress warnings were logged. -/
structure PostInitState where
  queue : Option String
  queue_name : String
  purgeCalls : Nat
  purgeInProgressWarnings : Nat
deriving DecidableEq, Repr

/-- Embeds S3Watcher dot post init, which declares its own parameter
named queue url with default None.  When that parameter is non-None a
queue handle is made and, if configured, the queue is purged, a
purge-in-progress error being caught and logged as a warning; any
other client error from the purge propagates.  When the parameter is
None the queue handle is set to None. -/
def post_init (cfg : WatcherConfig) (queue_url : Option String)
    (purgeEnv : PurgeOutcome) : Except PyError PostInitState :=
  let qn := cfg.bucket_name ++ "-s3watcher"
  match queue_url with
  | some u =>
    if cfg.purge_queue_before_watching then
      match purgeEnv with
      | PurgeOutcome.success =>
        Except.ok { queue := some u, queue_name := qn,
                    purgeCalls := 1, purgeInProgressWarnings := 0 }
      | PurgeOutcome.purgeInProgress =>
        Except.ok { queue := some u, queue_name := qn,
                    purgeCalls := 1, purgeInProgressWarnings := 1 }
      | PurgeOutcome.otherClientError =>
        Except.error (PyError.clientError "purge")
    else
      Except.ok { queue := some u, queue_name := qn,
                  purgeCalls := 0, purgeInProgressWarnings := 0 }
  | none =>
    Except.ok { queue := none, queue_name := qn,
                purgeCalls := 0, purgeInProgressWarnings := 0 }

/-- Embeds construction of an S3Watcher: the init the dataclass
generates stores the configuration and then calls the post init hook
with no arguments (the dataclass has no init-var fields), so the hook
parameter named queue url takes its default None whatever the
configured queue url field holds. -/
def construct (cfg : WatcherConfig) (purgeEnv : PurgeOutcome) :
    Except PyError PostInitState :=
  post_init cfg none purgeEnv

/-- Embeds S3Watcher dot delete sqs queue, whose entire body raises
NotImplementedError. -/
def delete_sqs_queue : Except PyError Unit :=
  Except.error PyError.notImplementedError

/-- Embeds S3Watcher dot del (the finalizer): when configured to
delete the queue after done it calls delete sqs queue, with no
exception handling of its own. -/
def watcher_del (cfg : WatcherConfig) : Except PyError Unit :=
  if cfg.delete_sqs_queue_after_done then delete_sqs_queue
  else Except.ok ()

/-- Embeds the QueueConfiguration dataclass of
infra/queue_configurations.py. -/
structure QueueConfiguration where
  Id : String
  QueueArn : String
  Events : List String
deriving DecidableEq, Repr

/-- Default Events value of the QueueConfiguration dataclass, also the
list configure s3 sqs for notification passes explicitly. -/
def defaultNotificationEvents : List String :=
  ["s3:ObjectCreated:*", "s3:ObjectRemoved:*", "s3:ObjectRestore:*"]

/-- Embeds the BucketNotifications dataclass: a list of queue
configurations. -/
structure BucketNotifications where
  configs : List QueueConfiguration
deriving DecidableEq, Repr

/-- Embeds BucketNotifications dot add: appends the new configuration
to the list. -/
def BucketNotifications.add (bn : BucketNotifications)
    (qc : QueueConfiguration) : BucketNotifications :=
  { configs := bn.configs ++ [qc] }

/-- Embeds BucketNotifications dot delete: keeps the configurations
whose Id differs from the given one. -/
def BucketNotifications.deleteById (bn : BucketNotifications)
    (id : String) : BucketNotifications :=
  { configs := bn.configs.filter (fun c => c.Id ≠ id) }

/-- Embeds the bucket notification id of configure s3 sqs for
notification: the format string interpolating exactly the bucket
name. -/
def bucket_notification_id (bucket_name : String) : String :=
  bucket_name

/-- Embeds the queue arn format string of configure s3 sqs for
notification. -/
def queue_arn (region account_number queue_name : String) : String :=
  "arn:aws:sqs:" ++ region ++ ":" ++ account_number ++ ":" ++ queue_name

/-- Embeds the local configuration update performed by configure s3
sqs for notification: fetch the current notifications (passed in
here), then add an entry whose Id is the bucket notification id,
whose arn names the queue and whose events are the three event
groups. -/
def configureLocalUpdate (bucket_name queue_name region account_number :
    String) (current : BucketNotifications) : BucketNotifications :=
  current.add
    { Id := bucket_notification_id bucket_name,
      QueueArn := queue_arn region account_number queue_name,
      Events := defaultNotificationEvents }

/-- A valid create-type record with the form-encoded key of the
specification example, for a watcher bound to bucket mybucket. -/
def createdRecordCx : SQSRecord :=
  { eventSource := some "aws:s3", eventVersion := some "2.1",
    eventName := some "ObjectCreated:Put",
    eventTime := some "2024-01-01T00:00:00.000Z",
    s3 := some { bucket := some { name := some "mybucket" },
                 object := some { key := some "a+b%2Fc", size := some 1024,
                                  eTag := some "abc123",
                                  sequencer := some "005a1b2c" } } }

/-- Object section of a delete-type record that carries no size and no
eTag field. -/
def deletedObjectCx : ObjectSection :=
  { key := some "a+b%2Fc", sequencer := some "005a1b2d" }

/-- A valid delete-type record whose object carries no size and no
eTag field. -/
def deletedRecordCx : SQSRecord :=
  { eventSource := some "aws:s3", eventVersion := some "2.1",
    eventName := some "ObjectRemoved:Delete",
    eventTime := some "2024-01-02T00:00:00.000Z",
    s3 := some { bucket := some { name := some "mybucket" },
                 object := some deletedObjectCx } }

/-- A valid record whose event name starts with neither the created
nor the removed family marker. -/
def restoreRecordCx : SQSRecord :=
  { eventSource := some "aws:s3", eventVersion := some "2.1",
    eventName := some "ObjectRestore:Completed",
    eventTime := some "2024-01-03T00:00:00.000Z",
    s3 := some { bucket := some { name := some "mybucket" },
                 object := some { key := some "x.txt",
                                  sequencer := some "00ff" } } }

/-- A record whose declared event source is not the storage service. -/
def snsRecordCx : SQSRecord :=
  { eventSource := some "aws:sns" }

/-- A configuration that supplies a queue url and asks for a purge
before watching. -/
def purgeConfiguredWatcher : WatcherConfig :=
  { bucket_name := "mybucket",
    queue_url := some "https://sqs.example/mybucket-s3watcher",
    purge_queue_before_watching := true }

/-- A configuration that asks for queue deletion on teardown. -/
def deleteConfiguredWatcher : WatcherConfig :=
  { bucket_name := "mybucket", delete_sqs_queue_after_done := true }

/-- C1: the claim says every valid create-type record maps to a
Created event with the form-decoded key and the size, etag and
hex-decoded sequence of the record.  The decoding itself behaves as
claimed (the raw key of the example decodes as stated), but the
mapper cannot return any event: the keyword construction of S3Event
in the created branch passes a keyword the dataclass init does not
accept (and omits a required one), so the call raises TypeError on
every valid create-type record. -/
theorem c1_create_mapping_crashes :
    unquote_plus "a+b%2Fc" = "a b/c" ∧
      create_event "mybucket" createdRecordCx =
        Except.error (PyError.typeError "unexpected keyword argument") :=
  ⟨rfl, rfl⟩

/-- C2 counterexample: a record passing every filter whose event name
starts with neither family marker is discarded, the mapper returning
None, against the claim that an Updated event is still emitted. -/
theorem c2_counterexample :
    create_event "mybucket" restoreRecordCx = Except.ok none :=
  rfl

/-- C2 as amended: for every record passing the source, version and
bucket filters whose event name starts with neither the created nor
the removed family marker, and whose key and sequencer fields are
present and parse, the mapper classifies the record Updated
internally but returns None: the record is discarded and no event is
emitted. -/
theorem c2_unclassified_records_discarded (bn : String) (r : SQSRecord)
    (sec : S3Section) (bk : BucketSection) (obj : ObjectSection)
    (ev en k sq : String) (n : Nat)
    (h1 : r.eventSource = some "aws:s3")
    (h2 : r.eventVersion = some ev)
    (h3 : pySplitDotHead ev = "2")
    (h4 : r.s3 = some sec)
    (h5 : sec.bucket = some bk)
    (h6 : bk.name = some bn)
    (h7 : r.eventName = some en)
    (h8 : pyStartsWith en "ObjectCreated:" = false)
    (h9 : pyStartsWith en "ObjectRemoved:" = false)
    (h10 : sec.object = some obj)
    (h11 : obj.key = some k)
    (h12 : obj.sequencer = some sq)
    (h13 : pyIntBase16 sq = Except.ok n) :
    create_event bn r = Except.ok none := by
  simp [create_event, h1, h2, h3, h4, h5, h6, h7, h8, h9, h10, h11,
    h12, h13]

/-- C2 witness: the amended statement applied to the concrete
restore record. -/
theorem c2_unclassified_records_discarded_witness :
    create_event "mybucket" restoreRecordCx = Except.ok none :=
  c2_unclassified_records_discarded "mybucket" restoreRecordCx
    { bucket := some { name := some "mybucket" },
      object := some { key := some "x.txt", sequencer := some "00ff" } }
    { name := some "mybucket" }
    { key := some "x.txt", sequencer := some "00ff" }
    "2.1" "ObjectRestore:Completed" "x.txt" "00ff" 255
    rfl rfl rfl rfl rfl rfl rfl rfl rfl rfl rfl rfl rfl

/-- C3 counterexample: a record whose mapping is None still
contributes one yielded value to the sequence, against the claim that
such a record contributes nothing. -/
theorem c3_counterexample :
    processRecords "mybucket" [snsRecordCx] =
      ([(none : Option S3Event)], none) ∧
      ([(none : Option S3Event)] : List (Option S3Event)) ≠ [] :=
  ⟨rfl, by simp⟩

/-- C3 as amended: on an exception-free batch the watch loop yields
the mapper result of every record, one value per record in order,
None values included; records with a None mapping are not dropped. -/
theorem c3_yields_every_mapper_result (bn : String)
    (rs : List SQSRecord) (ys : List (Option S3Event))
    (h : processRecords bn rs = (ys, none)) :
    ys = rs.map (mapperResult bn) := by
  induction rs generalizing ys with
  | nil =>
    rw [show processRecords bn [] =
      (([] : List (Option S3Event)), (none : Option PyError)) from rfl] at h
    injection h with ha _hb
    exact ha.symm
  | cons r rs ih =>
    cases hc : create_event bn r with
    | error e =>
      have hred : processRecords bn (r :: rs) = ([], some e) := by
        simp [processRecords, hc]
      rw [hred] at h
      injection h with _ha hb
      exact absurd hb (by simp)
    | ok v =>
      have hred : processRecords bn (r :: rs) =
          (v :: (processRecords bn rs).1, (processRecords bn rs).2) := by
        simp [processRecords, hc]
      rw [hred] at h
      injection h with ha hb
      have hrs : processRecords bn rs =
          ((processRecords bn rs).1, none) := by
        rw [← hb]
      have htail := ih (processRecords bn rs).1 hrs
      rw [← ha]
      simp [mapperResult, hc, htail]

/-- C3 witness: the amended statement applied to a batch of one
record whose mapping is None. -/
theorem c3_yields_every_mapper_result_witness :
    [(none : Option S3Event)] = [snsRecordCx].map (mapperResult "mybucket") :=
  c3_yields_every_mapper_result "mybucket" [snsRecordCx] [none] rfl

/-- C4: the claim says a delete-type record without size and eTag
maps to an event whose size and etag are explicitly absent.  The
record is indeed read with defaulting accesses, giving absent values
for both, but no event results: the keyword construction of S3Event
in the deleted branch passes a keyword the dataclass init does not
accept (and omits a required one), so the call raises TypeError. -/
theorem c4_delete_mapping_crashes :
    deletedObjectCx.size = none ∧ deletedObjectCx.eTag = none ∧
      create_event "mybucket" deletedRecordCx =
        Except.error (PyError.typeError "unexpected keyword argument") :=
  ⟨rfl, rfl, rfl⟩

/-- C5 counterexample: the sequencer string of the specification
example does not parse to the integer the claim states. -/
theorem c5_counterexample :
    pyIntBase16 "005a1b2c" ≠ Except.ok 5905708 := by
  intro h
  rw [show pyIntBase16 "005a1b2c" = Except.ok 5905196 from rfl] at h
  injection h with h2
  exact absurd h2 (by decide)

/-- C5 as amended: the sequencer string is parsed as a big-endian
base-16 integer, and the example input parses to 5905196. -/
theorem c5_amended_hex_parse :
    pyIntBase16 "005a1b2c" = Except.ok 5905196 :=
  rfl

/-- C6: for every configuration and every purge environment,
construction leaves the queue handle None and issues no purge,
because the dataclass invokes the post init hook with no arguments
and the hook parameter named queue url keeps its default None. -/
theorem c6_queue_none_after_construction (cfg : WatcherConfig)
    (purgeEnv : PurgeOutcome) :
    construct cfg purgeEnv =
      Except.ok { queue := none,
                  queue_name := cfg.bucket_name ++ "-s3watcher",
                  purgeCalls := 0, purgeInProgressWarnings := 0 } :=
  rfl

/-- C7 counterexample: a watcher configured with a queue url and the
purge flag still issues no purge request at construction, against the
claim that a purge request is issued at startup. -/
theorem c7_counterexample :
    construct purgeConfiguredWatcher PurgeOutcome.purgeInProgress =
      Except.ok { queue := none, queue_name := "mybucket-s3watcher",
                  purgeCalls := 0, purgeInProgressWarnings := 0 } :=
  rfl

/-- C7 as amended: no purge request is issued at startup, because
construction never binds the hook parameter named queue url; within
the purge branch itself, reachable only when that parameter is
non-None, a purge request is issued and a purge-already-in-progress
response is downgraded to a warning, initialization completing with
the queue handle set. -/
theorem c7_purge_in_progress_is_warning (cfg : WatcherConfig)
    (u : String) (h : cfg.purge_queue_before_watching = true) :
    post_init cfg (some u) PurgeOutcome.purgeInProgress =
      Except.ok { queue := some u,
                  queue_name := cfg.bucket_name ++ "-s3watcher",
                  purgeCalls := 1, purgeInProgressWarnings := 1 } := by
  simp [post_init, h]

/-- C7 witness: the amended statement applied to the concrete
purge-configured watcher. -/
theorem c7_purge_in_progress_is_warning_witness :
    post_init purgeConfiguredWatcher
        (some "https://sqs.example/mybucket-s3watcher")
        PurgeOutcome.purgeInProgress =
      Except.ok { queue := some "https://sqs.example/mybucket-s3watcher",
                  queue_name := "mybucket-s3watcher",
                  purgeCalls := 1, purgeInProgressWarnings := 1 } :=
  c7_purge_in_progress_is_warning purgeConfiguredWatcher
    "https://sqs.example/mybucket-s3watcher" rfl

/-- C8: over any number of consecutive empty polls the watch loop
sleeps wait seconds once per empty poll, yields nothing, deletes
nothing and does not fail: the while True loop has no exit and polls
again after every empty batch. -/
theorem c8_empty_polls_loop_continues (bn : String) (wait : Nat)
    (n : Nat) :
    runPolls bn wait (List.replicate n []) =
      { sleeps := List.replicate n wait, yields := [], deleted := [],
        failure := none } := by
  induction n with
  | zero => rfl
  | succ k ih =>
    simp [List.replicate_succ, runPolls, processMessages, ih]

/-- C9 counterexample: a watcher configured to delete the queue on
teardown raises from the teardown path, against the claim that no
exception propagates past the teardown boundary. -/
theorem c9_counterexample :
    watcher_del deleteConfiguredWatcher =
      Except.error PyError.notImplementedError :=
  rfl

/-- C9 as amended: when configured to delete the queue on teardown,
the finalizer calls the deletion method, whose body unconditionally
raises NotImplementedError; no deletion is attempted and nothing in
the teardown code logs or swallows the exception (only the host
runtime suppresses exceptions escaping a finalizer). -/
theorem c9_teardown_raises_not_implemented (cfg : WatcherConfig)
    (h : cfg.delete_sqs_queue_after_done = true) :
    watcher_del cfg = Except.error PyError.notImplementedError := by
  simp [watcher_del, h, delete_sqs_queue]

/-- C9 witness: the amended statement applied to the concrete
delete-configured watcher. -/
theorem c9_teardown_raises_not_implemented_witness :
    watcher_del deleteConfiguredWatcher =
      Except.error PyError.notImplementedError :=
  c9_teardown_raises_not_implemented deleteConfiguredWatcher rfl

/-- C10: the identifier of the notification entry is derived
deterministically from the bucket name alone, so running the local
configuration update twice for the same bucket, from any starting
configuration and with any queue names, appends two entries carrying
one and the same identifier: no two entries under different
identifiers arise. -/
theorem c10_notification_id_stable (bucket q1 q2 region acct : String)
    (current : BucketNotifications) :
    ((configureLocalUpdate bucket q2 region acct
        (configureLocalUpdate bucket q1 region acct current)).configs.drop
          current.configs.length).map QueueConfiguration.Id =
      [bucket_notification_id bucket, bucket_notification_id bucket] := by
  have hshape : (configureLocalUpdate bucket q2 region acct
      (configureLocalUpdate bucket q1 region acct current)).configs =
      current.configs ++
        [{ Id := bucket_notification_id bucket,
           QueueArn := queue_arn region acct q1,
           Events := defaultNotificationEvents },
         { Id := bucket_notification_id bucket,
           QueueArn := queue_arn region acct q2,
           Events := defaultNotificationEvents }] := by
    simp [configureLocalUpdate, BucketNotifications.add]
  rw [hshape, List.drop_left]
  rfl

